import Mathlib

/-!
Verification development for the Airflow MCP server (`server.py`).

The server exposes fourteen named tools.  Each tool invocation performs one
(or, for `get_task_logs`, possibly two) HTTP requests against the Airflow
REST API and renders the decoded JSON into a text summary.  We shallowly
embed the Python code: JSON values become the inductive `Json`, the Python
runtime operations used by the handlers (`dict.get`, `d[k]`, truthiness,
`str()`, `.lower()`, `len()`, iteration, `", ".join`) become total Lean
functions returning `Except String _` where the Python operation can raise,
and the HTTP layer becomes an explicit `Upstream` oracle mapping a request
to its outcome.  Exceptions are modelled by the `Except String` monad; the
top-level dispatcher `call_tool` catches every inner error and renders it as
a single text result, exactly as the Python `try`/`except` does.
-/

set_option maxRecDepth 100000

namespace Airflow

/-- Decoded JSON values (plus Python `None`, which `json` decodes to `null`). -/
inductive Json where
  | null : Json
  | bool (b : Bool) : Json
  | num (n : Int) : Json
  | str (s : String) : Json
  | arr (elems : List Json) : Json
  | obj (fields : List (String × Json)) : Json

/-- Python type name of a JSON value, used in runtime error messages. -/
def pyTypeName : Json → String
  | .null => "NoneType"
  | .bool _ => "bool"
  | .num _ => "int"
  | .str _ => "str"
  | .arr _ => "list"
  | .obj _ => "dict"

mutual

/-- Python `repr` of a decoded JSON value (string escaping is not modelled:
strings are rendered between plain single quotes). -/
def pyRepr : Json → String
  | .null => "None"
  | .bool true => "True"
  | .bool false => "False"
  | .num n => toString n
  | .str s => "'" ++ s ++ "'"
  | .arr elems => "[" ++ pyReprList elems ++ "]"
  | .obj fields => "\x7b" ++ pyReprFields fields ++ "\x7d"

/-- `repr` of list elements, comma separated. -/
def pyReprList : List Json → String
  | [] => ""
  | [x] => pyRepr x
  | x :: xs => pyRepr x ++ ", " ++ pyReprList xs

/-- `repr` of dict entries, comma separated. -/
def pyReprFields : List (String × Json) → String
  | [] => ""
  | [(k, v)] => "'" ++ k ++ "': " ++ pyRepr v
  | (k, v) :: xs => "'" ++ k ++ "': " ++ pyRepr v ++ ", " ++ pyReprFields xs

end

/-- Python `str()` of a decoded JSON value, as used by f-string interpolation. -/
def pyStr : Json → String
  | .str s => s
  | j => pyRepr j

/-- Python truthiness of a decoded JSON value. -/
def pyTruthy : Json → Bool
  | .null => false
  | .bool b => b
  | .num n => n != 0
  | .str s => s != ""
  | .arr elems => !elems.isEmpty
  | .obj fields => !fields.isEmpty

/-- Python `d.get(k, default)`: raises `AttributeError` when `d` is not a dict. -/
def pyGet (j : Json) (k : String) (dflt : Json) : Except String Json :=
  match j with
  | .obj fields => .ok ((fields.lookup k).getD dflt)
  | _ => .error ("'" ++ pyTypeName j ++ "' object has no attribute 'get'")

/-- Python `d[k]` on a decoded JSON value: `KeyError` (whose `str` is the
quoted key) when the key is missing, `TypeError` when `d` is not a dict. -/
def pyIndex (j : Json) (k : String) : Except String Json :=
  match j with
  | .obj fields =>
    match fields.lookup k with
    | some v => .ok v
    | none => .error ("'" ++ k ++ "'")
  | _ => .error ("'" ++ pyTypeName j ++ "' object is not subscriptable")

/-- Python `len()`. -/
def pyLen (j : Json) : Except String Nat :=
  match j with
  | .str s => .ok s.length
  | .arr elems => .ok elems.length
  | .obj fields => .ok fields.length
  | _ => .error ("object of type '" ++ pyTypeName j ++ "' has no len()")

/-- Python iteration over a decoded JSON value (lists yield elements, strings
yield one-character strings, dicts yield their keys). -/
def pyIter (j : Json) : Except String (List Json) :=
  match j with
  | .arr elems => .ok elems
  | .str s => .ok (s.data.map (fun c => .str (String.mk [c])))
  | .obj fields => .ok (fields.map (fun kv => .str kv.1))
  | _ => .error ("'" ++ pyTypeName j ++ "' object is not iterable")

/-- Lower-case a string character by character (the ASCII fragment of
Python `str.lower`, which is all the state strings use). -/
def pyLowerString (s : String) : String := String.mk (s.data.map Char.toLower)

/-- Python `.lower()`: only strings have the attribute. -/
def pyLower (j : Json) : Except String String :=
  match j with
  | .str s => .ok (pyLowerString s)
  | _ => .error ("'" ++ pyTypeName j ++ "' object has no attribute 'lower'")

/-- Join a list of JSON values that must all be strings (`sep.join(xs)`). -/
def pyJoinStrs (sep : String) (xs : List Json) : Except String String :=
  match xs with
  | [] => .ok ""
  | [x] =>
    match x with
    | .str s => .ok s
    | j => .error ("sequence item: expected str instance, " ++ pyTypeName j ++ " found")
  | x :: rest => do
    match x with
    | .str s =>
      let tail ← pyJoinStrs sep rest
      pure (s ++ sep ++ tail)
    | j => .error ("sequence item: expected str instance, " ++ pyTypeName j ++ " found")

/-- Python `sep.join(j)` over a decoded JSON value. -/
def pyJoin (sep : String) (j : Json) : Except String String :=
  match j with
  | .arr elems => pyJoinStrs sep elems
  | .str s => pyJoinStrs sep (s.data.map (fun c => .str (String.mk [c])))
  | _ => .error ("can only join an iterable")

/-- Python `j == s` where `s` is a string literal: true exactly when `j` is
that string (values of other types are never equal to a string). -/
def pyEqStr (j : Json) (s : String) : Bool :=
  match j with
  | .str t => t == s
  | _ => false

/-- `arguments.get(k, dflt)` on the invocation argument mapping. -/
def argGet (args : List (String × Json)) (k : String) (dflt : Json) : Json :=
  (args.lookup k).getD dflt

/-- `arguments[k]` on the invocation argument mapping: missing keys raise
`KeyError`, whose `str` is the quoted key. -/
def argReq (args : List (String × Json)) (k : String) : Except String Json :=
  match args.lookup k with
  | some v => .ok v
  | none => .error ("'" ++ k ++ "'")

/-- Outcome of one HTTP exchange with the Airflow API: either a transport
failure (`httpx.RequestError`) or a response carrying a status code, the raw
body text, and the result of `response.json()` on that body. -/
inductive HttpOutcome where
  | requestError (msg : String) : HttpOutcome
  | response (status : Nat) (text : String) (jsonBody : Except String Json) : HttpOutcome

/-- The upstream API as an oracle from (method, endpoint, query params, JSON
body) to the outcome of the exchange. -/
def Upstream : Type :=
  String → String → List (String × Json) → Option Json → HttpOutcome

/-- Configured web UI base URL (`airflow_baseurl`, default value). -/
def AIRFLOW_BASE_URL : String := "http://localhost:8080"

/-- `make_api_request` from `server.py`: 2xx responses yield the decoded JSON
body; non-2xx responses raise an API error carrying the status code and the
body's `detail` field when the body decodes to a dict containing one (the raw
body text otherwise); transport failures raise a connection error; a body of
a 2xx response that fails to decode raises an unexpected error. -/
def make_api_request (upstream : Upstream) (method endpoint : String)
    (params : List (String × Json)) (json_data : Option Json) : Except String Json :=
  match upstream method endpoint params json_data with
  | .requestError msg => .error ("Connection error: " ++ msg)
  | .response status text jsonBody =>
    if 200 ≤ status ∧ status < 300 then
      match jsonBody with
      | .ok v => .ok v
      | .error msg => .error ("Unexpected error: " ++ msg)
    else
      let detail :=
        match jsonBody with
        | .ok (.obj fields) =>
          match fields.lookup "detail" with
          | some v => pyStr v
          | none => text
        | _ => text
      .error ("API request failed (" ++ toString status ++ "): " ++ detail)

/-- Query parameters built by the `get_dags` branch: `limit` (default 100)
always, plus `only_active = "true"` when the `only_active` argument is truthy. -/
def get_dags_params (args : List (String × Json)) : List (String × Json) :=
  let only_active := argGet args "only_active" (.bool false)
  let limit := argGet args "limit" (.num 100)
  [("limit", limit)] ++ (if pyTruthy only_active then [("only_active", Json.str "true")] else [])

/-- The `get_dags` branch of `call_tool`. -/
def handle_get_dags (args : List (String × Json)) (upstream : Upstream) :
    Except String String := do
  let result ← make_api_request upstream "GET" "dags" (get_dags_params args) none
  let dags ← pyGet result "dags" (.arr [])
  let n ← pyLen dags
  let items ← pyIter dags
  let body ← items.foldlM (fun acc dag => do
    let isPaused ← pyGet dag "is_paused" .null
    let status := if pyTruthy isPaused then "⏸️ Paused" else "▶️ Active"
    let dagId ← pyIndex dag "dag_id"
    let desc ← pyGet dag "description" (.str "N/A")
    let sched ← pyGet dag "schedule_interval" (.str "N/A")
    pure (acc ++ "- **" ++ pyStr dagId ++ "** (" ++ status ++ ")\n"
      ++ "  - Description: " ++ pyStr desc ++ "\n"
      ++ "  - Schedule: " ++ pyStr sched ++ "\n\n")) ""
  pure ("Found " ++ toString n ++ " DAGs:\n\n" ++ body)

/-- The `get_dag_tasks` branch of `call_tool`. -/
def handle_get_dag_tasks (args : List (String × Json)) (upstream : Upstream) :
    Except String String := do
  let dag_id ← argReq args "dag_id"
  let result ← make_api_request upstream "GET" ("dags/" ++ pyStr dag_id ++ "/tasks") [] none
  let tasks ← pyGet result "tasks" (.arr [])
  let n ← pyLen tasks
  let items ← pyIter tasks
  let body ← items.foldlM (fun acc task => do
    let taskId ← pyIndex task "task_id"
    let op ← pyGet task "operator_name" (.str "N/A")
    let downstream ← pyGet task "downstream_task_ids" (.arr [])
    let ds ← pyJoin ", " downstream
    pure (acc ++ "- **" ++ pyStr taskId ++ "**\n"
      ++ "  - Type: " ++ pyStr op ++ "\n"
      ++ "  - Downstream: " ++ ds ++ "\n\n")) ""
  pure ("Tasks in DAG '" ++ pyStr dag_id ++ "' (" ++ toString n ++ " tasks):\n\n" ++ body)

/-- The `trigger_dag_run` branch of `call_tool`: `conf` and `logical_date`
enter the request body only when truthy; `dag_id`, `dag_run_id` and `state`
are read from the response by direct indexing, `execution_date` with a
fallback. -/
def handle_trigger_dag_run (args : List (String × Json)) (upstream : Upstream) :
    Except String String := do
  let dag_id ← argReq args "dag_id"
  let conf := argGet args "conf" (.obj [])
  let logical_date := argGet args "logical_date" .null
  let body := (if pyTruthy conf then [("conf", conf)] else [])
    ++ (if pyTruthy logical_date then [("logical_date", logical_date)] else [])
  let result ← make_api_request upstream "POST" ("dags/" ++ pyStr dag_id ++ "/dagRuns")
    [] (some (.obj body))
  let rDagId ← pyIndex result "dag_id"
  let rRunId ← pyIndex result "dag_run_id"
  let rState ← pyIndex result "state"
  let rExec ← pyGet result "execution_date" (.str "N/A")
  pure ("✅ DAG run triggered successfully!\n\n"
    ++ "- **DAG ID**: " ++ pyStr rDagId ++ "\n"
    ++ "- **Run ID**: " ++ pyStr rRunId ++ "\n"
    ++ "- **State**: " ++ pyStr rState ++ "\n"
    ++ "- **Execution Date**: " ++ pyStr rExec ++ "\n")

/-- The `clear_dag_run` branch of `call_tool`. -/
def handle_clear_dag_run (args : List (String × Json)) (upstream : Upstream) :
    Except String String := do
  let dag_id ← argReq args "dag_id"
  let dag_run_id ← argReq args "dag_run_id"
  let dry_run := argGet args "dry_run" (.bool false)
  let result ← make_api_request upstream "POST"
    ("dags/" ++ pyStr dag_id ++ "/dagRuns/" ++ pyStr dag_run_id ++ "/clear")
    [] (some (.obj [("dry_run", dry_run)]))
  let header := if pyTruthy dry_run then "🔍 Dry run - Tasks that would be cleared:\n\n"
    else "✅ DAG run cleared successfully!\n\n"
  let tis ← pyGet result "task_instances" (.arr [])
  let items ← pyIter tis
  let body ← items.foldlM (fun acc ti => do
    let tId ← pyIndex ti "task_id"
    let tn ← pyGet ti "try_number" (.str "N/A")
    pure (acc ++ "- " ++ pyStr tId ++ " (Try: " ++ pyStr tn ++ ")\n")) ""
  pure (header ++ body)

/-- The `set_dag_state` branch of `call_tool`. -/
def handle_set_dag_state (args : List (String × Json)) (upstream : Upstream) :
    Except String String := do
  let dag_id ← argReq args "dag_id"
  let is_paused ← argReq args "is_paused"
  let result ← make_api_request upstream "PATCH" ("dags/" ++ pyStr dag_id)
    [] (some (.obj [("is_paused", is_paused)]))
  let state_str := if pyTruthy is_paused then "⏸️ PAUSED" else "▶️ ACTIVE"
  let desc ← pyGet result "description" (.str "N/A")
  let sched ← pyGet result "schedule_interval" (.str "N/A")
  pure ("✅ DAG '" ++ pyStr dag_id ++ "' is now " ++ state_str ++ "\n\n"
    ++ "- **Description**: " ++ pyStr desc ++ "\n"
    ++ "- **Schedule**: " ++ pyStr sched ++ "\n")

/-- Per-run emoji of the `get_dag_runs` branch, keyed by lower-cased state. -/
def dagRunStateEmoji (s : String) : String :=
  (([("success", "✅"), ("failed", "❌"), ("running", "🔄"), ("queued", "⏳")]
    : List (String × String)).lookup s).getD "❓"

/-- Query parameters built by the `get_dag_runs` branch: `limit` (default 25)
always, plus `state` when the `state` argument is truthy. -/
def get_dag_runs_params (args : List (String × Json)) : List (String × Json) :=
  let state := argGet args "state" .null
  let limit := argGet args "limit" (.num 25)
  [("limit", limit)] ++ (if pyTruthy state then [("state", state)] else [])

/-- The `get_dag_runs` branch of `call_tool`. -/
def handle_get_dag_runs (args : List (String × Json)) (upstream : Upstream) :
    Except String String := do
  let dag_id ← argReq args "dag_id"
  let result ← make_api_request upstream "GET" ("dags/" ++ pyStr dag_id ++ "/dagRuns")
    (get_dag_runs_params args) none
  let dag_runs ← pyGet result "dag_runs" (.arr [])
  let n ← pyLen dag_runs
  let items ← pyIter dag_runs
  let body ← items.foldlM (fun acc run => do
    let st ← pyGet run "state" (.str "")
    let lowered ← pyLower st
    let emoji := dagRunStateEmoji lowered
    let runId ← pyIndex run "dag_run_id"
    let stD ← pyGet run "state" (.str "N/A")
    let sd ← pyGet run "start_date" (.str "N/A")
    let ed ← pyGet run "end_date" (.str "N/A")
    pure (acc ++ emoji ++ " **" ++ pyStr runId ++ "**\n"
      ++ "  - State: " ++ pyStr stD ++ "\n"
      ++ "  - Start: " ++ pyStr sd ++ "\n"
      ++ "  - End: " ++ pyStr ed ++ "\n\n")) ""
  pure ("DAG runs for '" ++ pyStr dag_id ++ "' (" ++ toString n ++ " runs):\n\n" ++ body)

/-- Per-instance emoji of the `get_task_instances` branch (five-way map
including "skipped"), keyed by lower-cased state. -/
def taskInstanceStateEmoji (s : String) : String :=
  (([("success", "✅"), ("failed", "❌"), ("running", "🔄"), ("queued", "⏳"),
     ("skipped", "⏭️")] : List (String × String)).lookup s).getD "❓"

/-- The `get_task_instances` branch of `call_tool`. -/
def handle_get_task_instances (args : List (String × Json)) (upstream : Upstream) :
    Except String String := do
  let dag_id ← argReq args "dag_id"
  let dag_run_id ← argReq args "dag_run_id"
  let result ← make_api_request upstream "GET"
    ("dags/" ++ pyStr dag_id ++ "/dagRuns/" ++ pyStr dag_run_id ++ "/taskInstances") [] none
  let task_instances ← pyGet result "task_instances" (.arr [])
  let items ← pyIter task_instances
  let body ← items.foldlM (fun acc ti => do
    let st ← pyGet ti "state" (.str "")
    let lowered ← pyLower st
    let emoji := taskInstanceStateEmoji lowered
    let tId ← pyIndex ti "task_id"
    let stD ← pyGet ti "state" (.str "N/A")
    let tn ← pyGet ti "try_number" (.str "N/A")
    let dur ← pyGet ti "duration" (.str "N/A")
    pure (acc ++ emoji ++ " **" ++ pyStr tId ++ "**\n"
      ++ "  - State: " ++ pyStr stD ++ "\n"
      ++ "  - Try Number: " ++ pyStr tn ++ "\n"
      ++ "  - Duration: " ++ pyStr dur ++ "s\n\n")) ""
  pure ("Task instances for '" ++ pyStr dag_id ++ "' run '" ++ pyStr dag_run_id ++ "':\n\n" ++ body)

/-- The `get_dag_stats` branch of `call_tool`. -/
def handle_get_dag_stats (upstream : Upstream) : Except String String := do
  let result ← make_api_request upstream "GET" "dagStats" [] none
  let stats ← pyGet result "dags" (.arr [])
  let items ← pyIter stats
  let body ← items.foldlM (fun acc dagStat => do
    let dagId ← pyIndex dagStat "dag_id"
    let ss ← pyGet dagStat "stats" (.arr [])
    let sItems ← pyIter ss
    let inner ← sItems.foldlM (fun acc2 st => do
      let s ← pyIndex st "state"
      let c ← pyIndex st "count"
      pure (acc2 ++ "  - " ++ pyStr s ++ ": " ++ pyStr c ++ "\n")) ""
    pure (acc ++ "**" ++ pyStr dagId ++ "**:\n" ++ inner ++ "\n")) ""
  pure ("📊 DAG Statistics:\n\n" ++ body)

/-- The `get_task_logs` branch of `call_tool`.  The primary logs request and
its rendering run under an inner `try`; any failure there triggers a second
request for the plain task-instance resource, whose own failure is not
caught here and propagates to the dispatcher boundary. -/
def handle_get_task_logs (args : List (String × Json)) (upstream : Upstream) :
    Except String String := do
  let dag_id ← argReq args "dag_id"
  let dag_run_id ← argReq args "dag_run_id"
  let task_id ← argReq args "task_id"
  let try_number := argGet args "try_number" (.num 1)
  let endpoint := "dags/" ++ pyStr dag_id ++ "/dagRuns/" ++ pyStr dag_run_id
    ++ "/taskInstances/" ++ pyStr task_id ++ "/logs/" ++ pyStr try_number
  let primary : Except String String := do
    let result ← make_api_request upstream "GET" endpoint [] none
    let log_content ← match result with
      | .obj fields =>
        match fields.lookup "content" with
        | some (.str s) => Except.ok s
        | some v =>
          Except.error ("can only concatenate str (not \"" ++ pyTypeName v ++ "\") to str")
        | none => Except.ok (pyStr result)
      | r => Except.ok (pyStr r)
    pure ("📝 Logs for task '" ++ pyStr task_id ++ "' (Try #" ++ pyStr try_number
      ++ "):\n\n```\n" ++ log_content ++ "\n```")
  match primary with
  | .ok s => pure s
  | .error e => do
    let ti_result ← make_api_request upstream "GET"
      ("dags/" ++ pyStr dag_id ++ "/dagRuns/" ++ pyStr dag_run_id
        ++ "/taskInstances/" ++ pyStr task_id) [] none
    let st ← pyGet ti_result "state" (.str "N/A")
    let tn ← pyGet ti_result "try_number" (.str "N/A")
    let sd ← pyGet ti_result "start_date" (.str "N/A")
    let ed ← pyGet ti_result "end_date" (.str "N/A")
    pure ("ℹ️ Task Instance Info for '" ++ pyStr task_id ++ "':\n\n"
      ++ "- State: " ++ pyStr st ++ "\n"
      ++ "- Try Number: " ++ pyStr tn ++ "\n"
      ++ "- Start Date: " ++ pyStr sd ++ "\n"
      ++ "- End Date: " ++ pyStr ed ++ "\n\n"
      ++ "⚠️ Note: Direct log retrieval failed. You may need to access logs through the Airflow UI at:\n"
      ++ AIRFLOW_BASE_URL ++ "/dags/" ++ pyStr dag_id ++ "/grid?dag_run_id="
      ++ pyStr dag_run_id ++ "&task_id=" ++ pyStr task_id ++ "\n\n"
      ++ "Error: " ++ e)

/-- The `get_import_errors` branch of `call_tool`. -/
def handle_get_import_errors (upstream : Upstream) : Except String String := do
  let result ← make_api_request upstream "GET" "importErrors" [] none
  let errors ← pyGet result "import_errors" (.arr [])
  if pyTruthy errors then do
    let n ← pyLen errors
    let items ← pyIter errors
    let body ← items.foldlM (fun acc err => do
      let fn ← pyGet err "filename" (.str "Unknown file")
      let stk ← pyGet err "stack_trace" (.str "No error details")
      pure (acc ++ "**" ++ pyStr fn ++ "**:\n```\n" ++ pyStr stk ++ "\n```\n\n")) ""
    pure ("⚠️ Found " ++ toString n ++ " DAG import errors:\n\n" ++ body)
  else
    pure "✅ No DAG import errors found!"

/-- The `get_connections` branch of `call_tool`. -/
def handle_get_connections (args : List (String × Json)) (upstream : Upstream) :
    Except String String := do
  let limit := argGet args "limit" (.num 100)
  let result ← make_api_request upstream "GET" "connections" [("limit", limit)] none
  let connections ← pyGet result "connections" (.arr [])
  let n ← pyLen connections
  let items ← pyIter connections
  let body ← items.foldlM (fun acc conn => do
    let cid ← pyIndex conn "connection_id"
    let t ← pyGet conn "conn_type" (.str "N/A")
    let h ← pyGet conn "host" (.str "N/A")
    let sch ← pyGet conn "schema" (.str "N/A")
    pure (acc ++ "- **" ++ pyStr cid ++ "**\n"
      ++ "  - Type: " ++ pyStr t ++ "\n"
      ++ "  - Host: " ++ pyStr h ++ "\n"
      ++ "  - Schema: " ++ pyStr sch ++ "\n\n")) ""
  pure ("🔌 Airflow Connections (" ++ toString n ++ " connections):\n\n" ++ body)

/-- The `get_connection` branch of `call_tool`. -/
def handle_get_connection (args : List (String × Json)) (upstream : Upstream) :
    Except String String := do
  let connection_id ← argReq args "connection_id"
  let result ← make_api_request upstream "GET" ("connections/" ++ pyStr connection_id) [] none
  let t ← pyGet result "conn_type" (.str "N/A")
  let h ← pyGet result "host" (.str "N/A")
  let sch ← pyGet result "schema" (.str "N/A")
  let lg ← pyGet result "login" (.str "N/A")
  let pt ← pyGet result "port" (.str "N/A")
  let ex ← pyGet result "extra" (.str "N/A")
  pure ("🔌 Connection Details: **" ++ pyStr connection_id ++ "**\n\n"
    ++ "- **Type**: " ++ pyStr t ++ "\n"
    ++ "- **Host**: " ++ pyStr h ++ "\n"
    ++ "- **Schema**: " ++ pyStr sch ++ "\n"
    ++ "- **Login**: " ++ pyStr lg ++ "\n"
    ++ "- **Port**: " ++ pyStr pt ++ "\n"
    ++ "- **Extra**: " ++ pyStr ex ++ "\n")

/-- The `test_connection` branch of `call_tool`: the lookup runs under an
inner `try`, so its failure is rendered as a connection-test-failure summary
rather than propagating. -/
def handle_test_connection (args : List (String × Json)) (upstream : Upstream) :
    Except String String := do
  let connection_id ← argReq args "connection_id"
  let attempt : Except String String := do
    let result ← make_api_request upstream "GET" ("connections/" ++ pyStr connection_id) [] none
    let t ← pyGet result "conn_type" (.str "N/A")
    let h ← pyGet result "host" (.str "N/A")
    pure ("✅ Connection '" ++ pyStr connection_id ++ "' is accessible!\n\n"
      ++ "- **Type**: " ++ pyStr t ++ "\n"
      ++ "- **Host**: " ++ pyStr h ++ "\n\n"
      ++ "ℹ️ Note: This tests API accessibility. To test actual connectivity to the external service, "
      ++ "you'll need to trigger a DAG that uses this connection.\n")
  match attempt with
  | .ok s => pure s
  | .error e =>
    pure ("❌ Connection test failed for '" ++ pyStr connection_id ++ "':\n\n"
      ++ "Error: " ++ e ++ "\n")

/-- The `check_health` branch of `call_tool`. -/
def handle_check_health (upstream : Upstream) : Except String String := do
  let result ← make_api_request upstream "GET" "health" [] none
  let metadatabase ← pyGet result "metadatabase" (.obj [])
  let scheduler ← pyGet result "scheduler" (.obj [])
  let db_status ← pyGet metadatabase "status" (.str "unknown")
  let scheduler_status ← pyGet scheduler "status" (.str "unknown")
  let db_emoji := if pyEqStr db_status "healthy" then "✅" else "❌"
  let scheduler_emoji := if pyEqStr scheduler_status "healthy" then "✅" else "❌"
  let base := "🏥 Airflow Health Status:\n\n"
    ++ db_emoji ++ " **Metadatabase**: " ++ pyStr db_status ++ "\n"
    ++ scheduler_emoji ++ " **Scheduler**: " ++ pyStr scheduler_status ++ "\n"
  let hb ← pyGet scheduler "latest_scheduler_heartbeat" .null
  if pyTruthy hb then do
    let hbv ← pyIndex scheduler "latest_scheduler_heartbeat"
    pure (base ++ "\n📅 Latest Scheduler Heartbeat: " ++ pyStr hbv ++ "\n")
  else
    pure base

/-- The body of `call_tool`'s `try` block: dispatch on the tool name, with an
unknown name raising `ValueError("Unknown tool: ...")`. -/
def call_tool_inner (name : String) (args : List (String × Json)) (upstream : Upstream) :
    Except String String :=
  if name = "get_dags" then handle_get_dags args upstream
  else if name = "get_dag_tasks" then handle_get_dag_tasks args upstream
  else if name = "trigger_dag_run" then handle_trigger_dag_run args upstream
  else if name = "clear_dag_run" then handle_clear_dag_run args upstream
  else if name = "set_dag_state" then handle_set_dag_state args upstream
  else if name = "get_dag_runs" then handle_get_dag_runs args upstream
  else if name = "get_task_instances" then handle_get_task_instances args upstream
  else if name = "get_dag_stats" then handle_get_dag_stats upstream
  else if name = "get_task_logs" then handle_get_task_logs args upstream
  else if name = "get_import_errors" then handle_get_import_errors upstream
  else if name = "get_connections" then handle_get_connections args upstream
  else if name = "get_connection" then handle_get_connection args upstream
  else if name = "test_connection" then handle_test_connection args upstream
  else if name = "check_health" then handle_check_health upstream
  else .error ("Unknown tool: " ++ name)

/-- `call_tool`: every branch of the Python function returns a one-element
`[TextContent]` list; any exception escaping a branch (or the dispatch
itself) is caught here and rendered as a one-element error text result. -/
def call_tool (name : String) (args : List (String × Json)) (upstream : Upstream) :
    List String :=
  match call_tool_inner name args upstream with
  | .ok summary => [summary]
  | .error e => ["❌ Error executing '" ++ name ++ "':\n\n" ++ e]

/-- An MCP tool definition: name, description, JSON Schema of the input. -/
structure Tool where
  name : String
  description : String
  inputSchema : Json

/-- The static registry returned by `list_tools`, schemas verbatim. -/
def list_tools : List Tool := [
  { name := "get_dags",
    description := "List all DAGs in Airflow with optional filtering by paused status",
    inputSchema := .obj [
      ("type", .str "object"),
      ("properties", .obj [
        ("only_active", .obj [
          ("type", .str "boolean"),
          ("description", .str "If true, only return active (unpaused) DAGs")]),
        ("limit", .obj [
          ("type", .str "integer"),
          ("description", .str "Maximum number of DAGs to return (default: 100)"),
          ("default", .num 100)])])] },
  { name := "get_dag_tasks",
    description := "Get all tasks in a specific DAG",
    inputSchema := .obj [
      ("type", .str "object"),
      ("properties", .obj [
        ("dag_id", .obj [
          ("type", .str "string"),
          ("description", .str "The ID of the DAG")])]),
      ("required", .arr [.str "dag_id"])] },
  { name := "trigger_dag_run",
    description := "Trigger a new DAG run",
    inputSchema := .obj [
      ("type", .str "object"),
      ("properties", .obj [
        ("dag_id", .obj [
          ("type", .str "string"),
          ("description", .str "The ID of the DAG to trigger")]),
        ("conf", .obj [
          ("type", .str "object"),
          ("description", .str "Optional configuration JSON to pass to the DAG run")]),
        ("logical_date", .obj [
          ("type", .str "string"),
          ("description", .str "Optional logical date for the DAG run (ISO format)")])]),
      ("required", .arr [.str "dag_id"])] },
  { name := "clear_dag_run",
    description := "Clear/retry a DAG run (resets failed tasks)",
    inputSchema := .obj [
      ("type", .str "object"),
      ("properties", .obj [
        ("dag_id", .obj [
          ("type", .str "string"),
          ("description", .str "The ID of the DAG")]),
        ("dag_run_id", .obj [
          ("type", .str "string"),
          ("description", .str "The ID of the DAG run to clear")]),
        ("dry_run", .obj [
          ("type", .str "boolean"),
          ("description", .str "If true, only show what would be cleared without actually clearing"),
          ("default", .bool false)])]),
      ("required", .arr [.str "dag_id", .str "dag_run_id"])] },
  { name := "set_dag_state",
    description := "Pause or unpause a DAG",
    inputSchema := .obj [
      ("type", .str "object"),
      ("properties", .obj [
        ("dag_id", .obj [
          ("type", .str "string"),
          ("description", .str "The ID of the DAG")]),
        ("is_paused", .obj [
          ("type", .str "boolean"),
          ("description", .str "True to pause the DAG, False to unpause it")])]),
      ("required", .arr [.str "dag_id", .str "is_paused"])] },
  { name := "get_dag_runs",
    description := "Get DAG run history with optional status filtering",
    inputSchema := .obj [
      ("type", .str "object"),
      ("properties", .obj [
        ("dag_id", .obj [
          ("type", .str "string"),
          ("description", .str "The ID of the DAG")]),
        ("state", .obj [
          ("type", .str "string"),
          ("description", .str "Filter by state (success, failed, running, queued)")]),
        ("limit", .obj [
          ("type", .str "integer"),
          ("description", .str "Maximum number of runs to return (default: 25)"),
          ("default", .num 25)])]),
      ("required", .arr [.str "dag_id"])] },
  { name := "get_task_instances",
    description := "Get task instances for a specific DAG run",
    inputSchema := .obj [
      ("type", .str "object"),
      ("properties", .obj [
        ("dag_id", .obj [
          ("type", .str "string"),
          ("description", .str "The ID of the DAG")]),
        ("dag_run_id", .obj [
          ("type", .str "string"),
          ("description", .str "The ID of the DAG run")])]),
      ("required", .arr [.str "dag_id", .str "dag_run_id"])] },
  { name := "get_dag_stats",
    description := "Get aggregate statistics for all DAGs",
    inputSchema := .obj [
      ("type", .str "object"),
      ("properties", .obj [])] },
  { name := "get_task_logs",
    description := "Get execution logs for a specific task instance",
    inputSchema := .obj [
      ("type", .str "object"),
      ("properties", .obj [
        ("dag_id", .obj [
          ("type", .str "string"),
          ("description", .str "The ID of the DAG")]),
        ("dag_run_id", .obj [
          ("type", .str "string"),
          ("description", .str "The ID of the DAG run")]),
        ("task_id", .obj [
          ("type", .str "string"),
          ("description", .str "The ID of the task")]),
        ("try_number", .obj [
          ("type", .str "integer"),
          ("description", .str "The try number of the task (default: 1)"),
          ("default", .num 1)])]),
      ("required", .arr [.str "dag_id", .str "dag_run_id", .str "task_id"])] },
  { name := "get_import_errors",
    description := "Get DAG import/parsing errors",
    inputSchema := .obj [
      ("type", .str "object"),
      ("properties", .obj [])] },
  { name := "get_connections",
    description := "List all Airflow connections",
    inputSchema := .obj [
      ("type", .str "object"),
      ("properties", .obj [
        ("limit", .obj [
          ("type", .str "integer"),
          ("description", .str "Maximum number of connections to return (default: 100)"),
          ("default", .num 100)])])] },
  { name := "get_connection",
    description := "Get details of a specific connection",
    inputSchema := .obj [
      ("type", .str "object"),
      ("properties", .obj [
        ("connection_id", .obj [
          ("type", .str "string"),
          ("description", .str "The ID of the connection")])]),
      ("required", .arr [.str "connection_id"])] },
  { name := "test_connection",
    description := "Test a connection to verify it works",
    inputSchema := .obj [
      ("type", .str "object"),
      ("properties", .obj [
        ("connection_id", .obj [
          ("type", .str "string"),
          ("description", .str "The ID of the connection to test")])]),
      ("required", .arr [.str "connection_id"])] },
  { name := "check_health",
    description := "Check Airflow system health (scheduler and database status)",
    inputSchema := .obj [
      ("type", .str "object"),
      ("properties", .obj [])] }
]

/-- The names of the fourteen registered tools, in registry order. -/
def registeredToolNames : List String :=
  ["get_dags", "get_dag_tasks", "trigger_dag_run", "clear_dag_run", "set_dag_state",
   "get_dag_runs", "get_task_instances", "get_dag_stats", "get_task_logs",
   "get_import_errors", "get_connections", "get_connection", "test_connection",
   "check_health"]

/-- The declared `type` of a tool's input schema. -/
def schemaType (t : Tool) : Option Json :=
  match t.inputSchema with
  | .obj fields => fields.lookup "type"
  | _ => none

/-- The declared `required` list of a tool's input schema (absent ⇒ empty). -/
def schemaRequired (t : Tool) : List Json :=
  match t.inputSchema with
  | .obj fields =>
    match fields.lookup "required" with
    | some (.arr xs) => xs
    | _ => []
  | _ => []

/-- Stub upstream that refuses every request at the transport level. -/
def stubDown : Upstream := fun _ _ _ _ => .requestError "connection refused"

/-- Stub upstream: `get_dags` response whose single DAG object has no fields. -/
def stubDagsFieldless : Upstream := fun _ _ _ _ =>
  .response 200 "" (.ok (.obj [("dags", .arr [.obj []])]))

/-- Stub upstream: `get_dags` response whose single DAG has only `dag_id`. -/
def stubDagsIdOnly : Upstream := fun _ _ _ _ =>
  .response 200 "" (.ok (.obj [("dags", .arr [.obj [("dag_id", .str "a")]])]))

/-- Stub upstream: `get_dags` response with one paused DAG `a`. -/
def stubDagsPaused : Upstream := fun _ _ _ _ =>
  .response 200 ""
    (.ok (.obj [("dags", .arr [.obj [("dag_id", .str "a"), ("is_paused", .bool true)]])]))

/-- Stub upstream: trigger response carrying ids and state but no
`execution_date`. -/
def stubTriggerNoExec : Upstream := fun _ _ _ _ =>
  .response 200 ""
    (.ok (.obj [("dag_id", .str "x"), ("dag_run_id", .str "m"), ("state", .str "queued")]))

/-- Stub upstream: trigger response that is an empty JSON object. -/
def stubTriggerEmpty : Upstream := fun _ _ _ _ => .response 200 "" (.ok (.obj []))

/-- Stub upstream: the logs endpoint 404s, every other endpoint returns a
task-instance object. -/
def stubLogsFail : Upstream := fun _ ep _ _ =>
  if ep = "dags/d/dagRuns/r/taskInstances/t/logs/1" then
    .response 404 "" (.ok (.obj [("detail", .str "log not found")]))
  else
    .response 200 "" (.ok (.obj [("state", .str "success"), ("try_number", .num 2),
      ("start_date", .str "S"), ("end_date", .str "E")]))

/-- Stub upstream: HTTP 404 with a structured `detail` body on every request. -/
def stubNotFound : Upstream := fun _ _ _ _ =>
  .response 404 "\x7b\"detail\": \"DAG not found\"\x7d"
    (.ok (.obj [("detail", .str "DAG not found")]))

/-- Stub upstream: one dag run with an upper-case state string. -/
def stubOneRun : Upstream := fun _ _ _ _ =>
  .response 200 ""
    (.ok (.obj [("dag_runs", .arr [.obj [("dag_run_id", .str "r"), ("state", .str "SUCCESS")]])]))

/-- Stub upstream: health response with both components and no heartbeat. -/
def stubHealthNoHb : Upstream := fun _ _ _ _ =>
  .response 200 ""
    (.ok (.obj [("metadatabase", .obj [("status", .str "healthy")]),
      ("scheduler", .obj [("status", .str "degraded")])]))

/-- Stub upstream: health response with a scheduler heartbeat present. -/
def stubHealthHb : Upstream := fun _ _ _ _ =>
  .response 200 ""
    (.ok (.obj [("metadatabase", .obj [("status", .str "healthy")]),
      ("scheduler", .obj [("status", .str "healthy"),
        ("latest_scheduler_heartbeat", .str "2026-01-01T00:00:00")])]))

/-- Stub upstream: health response that is an empty JSON object. -/
def stubHealthEmpty : Upstream := fun _ _ _ _ => .response 200 "" (.ok (.obj []))

/-- Stub upstream: dag-run and task-instance listings whose entries carry a
JSON `null` state. -/
def stubNullState : Upstream := fun _ _ _ _ =>
  .response 200 "" (.ok (.obj [
    ("dag_runs", .arr [.obj [("dag_run_id", .str "r"), ("state", Json.null)]]),
    ("task_instances", .arr [.obj [("task_id", .str "t"), ("state", Json.null)]])]))

/-- Stub upstream: dag-run and task-instance listings whose entries have no
state field at all. -/
def stubAbsentState : Upstream := fun _ _ _ _ =>
  .response 200 "" (.ok (.obj [
    ("dag_runs", .arr [.obj [("dag_run_id", .str "r")]]),
    ("task_instances", .arr [.obj [("task_id", .str "t")]])]))

/-- `listStarts s p`: `p` is an initial segment of `s`. -/
def listStarts : List Char → List Char → Bool
  | _, [] => true
  | [], _ :: _ => false
  | a :: as, b :: bs => a == b && listStarts as bs

/-- `listHasSub s p`: `p` occurs contiguously inside `s`. -/
def listHasSub : List Char → List Char → Bool
  | [], p => listStarts [] p
  | c :: rest, p => listStarts (c :: rest) p || listHasSub rest p

/-- Substring occurrence test on strings (executable, used to state
"the output contains / does not contain ..."). -/
def strHasSub (s pat : String) : Bool := listHasSub s.data pat.data

theorem errHead_split (name e : String) :
    "❌ Error executing '" ++ name ++ "':\n\n" ++ e
      = "❌" ++ (" Error executing '" ++ name ++ "':\n\n" ++ e) := by
  simp only [String.append_assoc]
  conv_rhs => rw [← String.append_assoc]
  rfl

theorem toString_int_one : toString (1 : Int) = "1" := rfl

theorem toString_nat_one : toString (1 : Nat) = "1" := rfl

/-- Claim C1: for every tool name and argument mapping, invoking a tool
returns exactly one text result and never raises past the dispatch boundary:
whenever the dispatched computation fails with message `e`, the single result
begins with the failure marker `❌` and contains `e`; in particular invoking
`get_dag_tasks` with no arguments (missing required `dag_id`) yields such an
error-shaped result rather than a raised fault.  (In the embedding
`call_tool` is a total function, so "never raises" holds by construction;
the theorem pins down the shape of the error result.) -/
theorem c1_invoke_never_raises :
    ∀ (name : String) (args : List (String × Json)) (upstream : Upstream),
      (call_tool name args upstream).length = 1
      ∧ (∀ e, call_tool_inner name args upstream = .error e →
          ∃ tail, call_tool name args upstream = ["❌" ++ tail]
            ∧ tail = " Error executing '" ++ name ++ "':\n\n" ++ e
            ∧ ∃ front, call_tool name args upstream = [front ++ e])
      ∧ call_tool "get_dag_tasks" [] upstream
          = ["❌ Error executing 'get_dag_tasks':\n\n'dag_id'"] := by
  intro name args upstream
  refine ⟨?_, ?_, rfl⟩
  · cases heq : call_tool_inner name args upstream <;> simp [call_tool, heq]
  · intro e he
    have hout : call_tool name args upstream
        = ["❌ Error executing '" ++ name ++ "':\n\n" ++ e] := by
      simp [call_tool, he]
    refine ⟨" Error executing '" ++ name ++ "':\n\n" ++ e, ?_, rfl,
      "❌ Error executing '" ++ name ++ "':\n\n", hout⟩
    rw [hout]
    exact congrArg (fun s => [s]) (errHead_split name e)

/-- Witness for C1 at a concrete input: `get_dags` against an unreachable
upstream produces the single failure-marked result carrying the connection
error message. -/
theorem c1_invoke_never_raises_witness :
    ∃ tail, call_tool "get_dags" [] stubDown = ["❌" ++ tail]
      ∧ tail = " Error executing '" ++ "get_dags" ++ "':\n\n"
          ++ "Connection error: connection refused"
      ∧ ∃ front, call_tool "get_dags" [] stubDown
          = [front ++ "Connection error: connection refused"] :=
  (c1_invoke_never_raises "get_dags" [] stubDown).2.1
    "Connection error: connection refused" rfl

/-- Claim C5: invoking any name outside the fourteen registered tool names
performs no upstream call (the result is a constant independent of the
upstream oracle) and returns the single error-shaped text result containing
"Unknown tool". -/
theorem c5_unknown_tool :
    ∀ (name : String) (args : List (String × Json)) (upstream : Upstream),
      name ∉ registeredToolNames →
      call_tool name args upstream
        = ["❌ Error executing '" ++ name ++ "':\n\n" ++ ("Unknown tool: " ++ name)]
      ∧ ∃ a b, call_tool name args upstream = [a ++ ("Unknown tool: " ++ b)] := by
  intro name args upstream h
  simp only [registeredToolNames, List.mem_cons, List.not_mem_nil, or_false, not_or] at h
  obtain ⟨h1, h2, h3, h4, h5, h6, h7, h8, h9, h10, h11, h12, h13, h14⟩ := h
  have hout : call_tool name args upstream
      = ["❌ Error executing '" ++ name ++ "':\n\n" ++ ("Unknown tool: " ++ name)] := by
    simp [call_tool, call_tool_inner, h1, h2, h3, h4, h5, h6, h7, h8, h9, h10, h11,
      h12, h13, h14]
  exact ⟨hout, "❌ Error executing '" ++ name ++ "':\n\n", name, hout⟩

/-- Witness for C5: invoking the unregistered name `nonexistent_tool`. -/
theorem c5_unknown_tool_witness :
    call_tool "nonexistent_tool" [] stubDown
      = ["❌ Error executing '" ++ "nonexistent_tool" ++ "':\n\n"
          ++ ("Unknown tool: " ++ "nonexistent_tool")]
      ∧ ∃ a b, call_tool "nonexistent_tool" [] stubDown
          = [a ++ ("Unknown tool: " ++ b)] :=
  c5_unknown_tool "nonexistent_tool" [] stubDown (by decide)

/-- Claim C8: `list_tools` is a pure constant (hence deterministic and
side-effect-free across any interleaved invocations); it lists exactly the
fourteen registered names, each exactly once, every input schema is
object-typed, and each schema's `required` list matches the declared
required parameters. -/
theorem c8_list_tools_registry :
    list_tools.map Tool.name = registeredToolNames
    ∧ (list_tools.map Tool.name).Nodup
    ∧ list_tools.length = 14
    ∧ list_tools.map schemaType = List.replicate 14 (some (Json.str "object"))
    ∧ list_tools.map schemaRequired =
      [[], [Json.str "dag_id"], [Json.str "dag_id"],
       [Json.str "dag_id", Json.str "dag_run_id"],
       [Json.str "dag_id", Json.str "is_paused"], [Json.str "dag_id"],
       [Json.str "dag_id", Json.str "dag_run_id"], [],
       [Json.str "dag_id", Json.str "dag_run_id", Json.str "task_id"], [], [],
       [Json.str "connection_id"], [Json.str "connection_id"], []] := by
  refine ⟨rfl, ?_, rfl, rfl, rfl⟩
  rw [show list_tools.map Tool.name = registeredToolNames from rfl]
  decide

/-- Claim C10: in `get_dag_runs` and `get_task_instances` the per-entry state
lookup is total only over absent or string-valued states: an entry whose
`state` is JSON `null` makes the lower-casing step raise, so the invocation
returns the dispatcher's error result, while an entry with no `state` field
at all is rendered with the generic `❓` marker in a success summary. -/
theorem c10_null_state_raises :
    call_tool "get_dag_runs" [("dag_id", .str "d")] stubNullState
      = ["❌ Error executing 'get_dag_runs':\n\n'NoneType' object has no attribute 'lower'"]
    ∧ call_tool "get_task_instances" [("dag_id", .str "d"), ("dag_run_id", .str "r")] stubNullState
      = ["❌ Error executing 'get_task_instances':\n\n'NoneType' object has no attribute 'lower'"]
    ∧ call_tool "get_dag_runs" [("dag_id", .str "d")] stubAbsentState
      = ["DAG runs for 'd' (1 runs):\n\n❓ **r**\n  - State: N/A\n  - Start: N/A\n  - End: N/A\n\n"]
    ∧ call_tool "get_task_instances" [("dag_id", .str "d"), ("dag_run_id", .str "r")] stubAbsentState
      = ["Task instances for 'd' run 'r':\n\n❓ **t**\n  - State: N/A\n  - Try Number: N/A\n  - Duration: N/As\n\n"] :=
  ⟨rfl, rfl, rfl, rfl⟩

/-- Claim C2: whenever the primary logs request of `get_task_logs` fails
(with any error `e`) and the task-instance fallback request succeeds, the
handler returns, without raising, a single result carrying the fallback's
state, try number, start and end dates, the web UI grid view URL and the
original error text; and whenever the fallback request itself fails, its
error propagates uncaught to the outer dispatch boundary, which still yields
the uniform single error result. -/
theorem c2_get_task_logs_fallback :
    (∀ (u : Upstream) (e : String) (st tn sd ed : Json),
      make_api_request u "GET" "dags/d/dagRuns/r/taskInstances/t/logs/1" [] none = .error e →
      make_api_request u "GET" "dags/d/dagRuns/r/taskInstances/t" [] none
        = .ok (.obj [("state", st), ("try_number", tn), ("start_date", sd), ("end_date", ed)]) →
      call_tool "get_task_logs"
          [("dag_id", .str "d"), ("dag_run_id", .str "r"), ("task_id", .str "t")] u
        = ["ℹ️ Task Instance Info for 't':\n\n- State: " ++ pyStr st
            ++ "\n- Try Number: " ++ pyStr tn
            ++ "\n- Start Date: " ++ pyStr sd
            ++ "\n- End Date: " ++ pyStr ed
            ++ "\n\n⚠️ Note: Direct log retrieval failed. You may need to access logs through the Airflow UI at:\nhttp://localhost:8080/dags/d/grid?dag_run_id=r&task_id=t\n\nError: "
            ++ e])
    ∧ (∀ (u : Upstream) (e1 e2 : String),
      make_api_request u "GET" "dags/d/dagRuns/r/taskInstances/t/logs/1" [] none = .error e1 →
      make_api_request u "GET" "dags/d/dagRuns/r/taskInstances/t" [] none = .error e2 →
      call_tool "get_task_logs"
          [("dag_id", .str "d"), ("dag_run_id", .str "r"), ("task_id", .str "t")] u
        = ["❌ Error executing 'get_task_logs':\n\n" ++ e2]) := by
  constructor
  · intro u e st tn sd ed h1 h2
    simp [call_tool, call_tool_inner, handle_get_task_logs, argReq, argGet, pyStr, pyGet,
      pyRepr, AIRFLOW_BASE_URL, List.lookup, Bind.bind, Except.bind, pure, Except.pure,
      Except.map, Functor.map, toString_int_one, String.append_assoc, h1, h2]
  · intro u e1 e2 h1 h2
    simp [call_tool, call_tool_inner, handle_get_task_logs, argReq, argGet, pyStr, pyGet,
      pyRepr, AIRFLOW_BASE_URL, List.lookup, Bind.bind, Except.bind, pure, Except.pure,
      Except.map, Functor.map, toString_int_one, String.append_assoc, h1, h2]

/-- Witness for C2 at concrete inputs: an upstream whose logs endpoint 404s
but whose task-instance endpoint succeeds, and an upstream that is fully
unreachable. -/
theorem c2_get_task_logs_fallback_witness :
    call_tool "get_task_logs"
        [("dag_id", .str "d"), ("dag_run_id", .str "r"), ("task_id", .str "t")] stubLogsFail
      = ["ℹ️ Task Instance Info for 't':\n\n- State: " ++ pyStr (.str "success")
          ++ "\n- Try Number: " ++ pyStr (.num 2)
          ++ "\n- Start Date: " ++ pyStr (.str "S")
          ++ "\n- End Date: " ++ pyStr (.str "E")
          ++ "\n\n⚠️ Note: Direct log retrieval failed. You may need to access logs through the Airflow UI at:\nhttp://localhost:8080/dags/d/grid?dag_run_id=r&task_id=t\n\nError: "
          ++ "API request failed (404): log not found"]
    ∧ call_tool "get_task_logs"
        [("dag_id", .str "d"), ("dag_run_id", .str "r"), ("task_id", .str "t")] stubDown
      = ["❌ Error executing 'get_task_logs':\n\n" ++ "Connection error: connection refused"] :=
  ⟨c2_get_task_logs_fallback.1 stubLogsFail "API request failed (404): log not found"
      (.str "success") (.num 2) (.str "S") (.str "E") rfl rfl,
   c2_get_task_logs_fallback.2 stubDown "Connection error: connection refused"
      "Connection error: connection refused" rfl rfl⟩

/-- Counterexample to claim C3 as stated: not every field a handler reads is
looked up with an "N/A" fallback — `get_dags` reads `dag_id` by direct
indexing, so a response whose DAG object lacks `dag_id` produces the
dispatcher's error result instead of a success summary with "N/A". -/
theorem c3_counterexample :
    call_tool "get_dags" [] stubDagsFieldless
      = ["❌ Error executing 'get_dags':\n\n'dag_id'"]
    ∧ ∃ tail, call_tool "get_dags" [] stubDagsFieldless = ["❌" ++ tail] :=
  ⟨rfl, " Error executing 'get_dags':\n\n'dag_id'", rfl⟩

/-- Claim C3 (amended): optional descriptive fields (`description`,
`schedule_interval`, `execution_date`, ...) are looked up with an "N/A"
fallback, so their absence still yields a success summary showing "N/A";
but identifier and state fields read by direct indexing (`dag_id` per DAG in
`get_dags`; `dag_id`, `dag_run_id`, `state` of the response in
`trigger_dag_run`) raise on absence and yield the dispatcher's error
result. -/
theorem c3_na_fallback_amended :
    (∀ (u : Upstream) (txt : String),
      u "GET" "dags" [("limit", Json.num 100)] none = .response 200 txt
        (.ok (.obj [("dags", .arr [.obj [("dag_id", .str "a")]])])) →
      call_tool "get_dags" [] u
        = ["Found 1 DAGs:\n\n- **a** (▶️ Active)\n  - Description: N/A\n  - Schedule: N/A\n\n"])
    ∧ (∀ (u : Upstream) (txt : String),
      u "POST" "dags/x/dagRuns" [] (some (.obj [])) = .response 200 txt
        (.ok (.obj [("dag_id", .str "x"), ("dag_run_id", .str "m"), ("state", .str "queued")])) →
      call_tool "trigger_dag_run" [("dag_id", .str "x")] u
        = ["✅ DAG run triggered successfully!\n\n- **DAG ID**: x\n- **Run ID**: m\n- **State**: queued\n- **Execution Date**: N/A\n"])
    ∧ (∀ (u : Upstream) (txt : String),
      u "POST" "dags/x/dagRuns" [] (some (.obj [])) = .response 200 txt (.ok (.obj [])) →
      call_tool "trigger_dag_run" [("dag_id", .str "x")] u
        = ["❌ Error executing 'trigger_dag_run':\n\n'dag_id'"]) := by
  refine ⟨?_, ?_, ?_⟩ <;> intro u txt h <;>
    simp [call_tool, call_tool_inner, handle_get_dags, handle_trigger_dag_run,
      make_api_request, get_dags_params, argGet, argReq, pyTruthy, pyStr, pyRepr, pyGet,
      pyLen, pyIter, pyIndex, List.lookup, List.foldlM, Bind.bind, Except.bind, pure,
      Except.pure, Functor.map, Except.map, toString_nat_one, String.append_assoc, h]

/-- Witness for C3's amended theorem at concrete upstreams. -/
theorem c3_na_fallback_amended_witness :
    call_tool "get_dags" [] stubDagsIdOnly
      = ["Found 1 DAGs:\n\n- **a** (▶️ Active)\n  - Description: N/A\n  - Schedule: N/A\n\n"]
    ∧ call_tool "trigger_dag_run" [("dag_id", .str "x")] stubTriggerNoExec
      = ["✅ DAG run triggered successfully!\n\n- **DAG ID**: x\n- **Run ID**: m\n- **State**: queued\n- **Execution Date**: N/A\n"]
    ∧ call_tool "trigger_dag_run" [("dag_id", .str "x")] stubTriggerEmpty
      = ["❌ Error executing 'trigger_dag_run':\n\n'dag_id'"] :=
  ⟨c3_na_fallback_amended.1 stubDagsIdOnly "" rfl,
   c3_na_fallback_amended.2.1 stubTriggerNoExec "" rfl,
   c3_na_fallback_amended.2.2 stubTriggerEmpty "" rfl⟩

/-- Claim C4: on every non-2xx response the API client fails with a message
carrying the numeric status code and the body's `detail` field when the body
parses as a JSON object containing one, the raw body text otherwise (body
not JSON, or JSON without `detail`); consequently a tool invocation hitting
a 404 with body `{"detail":"DAG not found"}` returns an error result
containing "404" and "DAG not found". -/
theorem c4_api_error_condition :
    (∀ (u : Upstream) (m ep txt : String) (ps : List (String × Json)) (b : Option Json)
        (st : Nat) (fields : List (String × Json)) (dv : Json),
      u m ep ps b = .response st txt (.ok (.obj fields)) →
      ¬(200 ≤ st ∧ st < 300) →
      fields.lookup "detail" = some dv →
      make_api_request u m ep ps b
        = .error ("API request failed (" ++ toString st ++ "): " ++ pyStr dv))
    ∧ (∀ (u : Upstream) (m ep txt perr : String) (ps : List (String × Json)) (b : Option Json)
        (st : Nat),
      u m ep ps b = .response st txt (.error perr) →
      ¬(200 ≤ st ∧ st < 300) →
      make_api_request u m ep ps b
        = .error ("API request failed (" ++ toString st ++ "): " ++ txt))
    ∧ (∀ (u : Upstream) (m ep txt : String) (ps : List (String × Json)) (b : Option Json)
        (st : Nat) (fields : List (String × Json)),
      u m ep ps b = .response st txt (.ok (.obj fields)) →
      ¬(200 ≤ st ∧ st < 300) →
      fields.lookup "detail" = none →
      make_api_request u m ep ps b
        = .error ("API request failed (" ++ toString st ++ "): " ++ txt))
    ∧ (call_tool "get_dag_tasks" [("dag_id", .str "x")] stubNotFound
        = ["❌ Error executing 'get_dag_tasks':\n\nAPI request failed (404): DAG not found"]
      ∧ call_tool "get_connections" [] stubNotFound
        = ["❌ Error executing 'get_connections':\n\nAPI request failed (404): DAG not found"]
      ∧ strHasSub "❌ Error executing 'get_dag_tasks':\n\nAPI request failed (404): DAG not found" "404" = true
      ∧ strHasSub "❌ Error executing 'get_dag_tasks':\n\nAPI request failed (404): DAG not found" "DAG not found" = true) := by
  refine ⟨?_, ?_, ?_, rfl, rfl, rfl, rfl⟩
  · intro u m ep txt ps b st fields dv h hst hdet
    simp [make_api_request, h, hst, hdet]
  · intro u m ep txt perr ps b st h hst
    simp [make_api_request, h, hst]
  · intro u m ep txt ps b st fields h hst hdet
    simp [make_api_request, h, hst, hdet]

/-- Witness for C4 at a concrete input: the stubbed 404 upstream. -/
theorem c4_api_error_condition_witness :
    make_api_request stubNotFound "GET" "dags" [] none
      = .error ("API request failed (" ++ toString (404 : Nat) ++ "): "
          ++ pyStr (.str "DAG not found")) :=
  c4_api_error_condition.1 stubNotFound "GET" "dags"
    "\x7b\"detail\": \"DAG not found\"\x7d" [] none 404
    [("detail", .str "DAG not found")] (.str "DAG not found") rfl (by decide) rfl

/-- Counterexample to claim C6 as stated: the `only_active` query parameter
is sent exactly when the argument is *truthy*, not exactly when it is `true`
— with `only_active = 1` (a number) the parameter is included although the
argument is not the boolean `true`. -/
theorem c6_counterexample :
    ("only_active", Json.str "true") ∈ get_dags_params [("only_active", Json.num 1)]
    ∧ argGet [("only_active", Json.num 1)] "only_active" (Json.bool false) ≠ Json.bool true := by
  constructor
  · rw [show get_dags_params [("only_active", Json.num 1)]
      = [("limit", Json.num 100), ("only_active", Json.str "true")] from rfl]
    simp
  · rw [show argGet [("only_active", Json.num 1)] "only_active" (Json.bool false)
      = Json.num 1 from rfl]
    exact fun h => Json.noConfusion h

/-- Claim C6 (amended): `get_dags` always sends `limit` (the given value,
defaulting to 100) and sends `only_active` with string value "true" exactly
when the `only_active` argument is truthy (Python truthiness, e.g. also for
the number 1); and for a response with the single DAG
`{"dag_id":"a","is_paused":true}` the output contains "a" and the paused
indicator but not the active indicator. -/
theorem c6_get_dags_query_amended :
    (∀ args : List (String × Json),
      (("only_active", Json.str "true") ∈ get_dags_params args
        ↔ pyTruthy (argGet args "only_active" (Json.bool false)) = true)
      ∧ ("limit", argGet args "limit" (Json.num 100)) ∈ get_dags_params args)
    ∧ (∀ (u : Upstream) (txt : String),
      u "GET" "dags" [("limit", Json.num 100)] none = .response 200 txt
        (.ok (.obj [("dags", .arr [.obj [("dag_id", .str "a"), ("is_paused", .bool true)]])])) →
      call_tool "get_dags" [] u
        = ["Found 1 DAGs:\n\n- **a** (⏸️ Paused)\n  - Description: N/A\n  - Schedule: N/A\n\n"])
    ∧ strHasSub "Found 1 DAGs:\n\n- **a** (⏸️ Paused)\n  - Description: N/A\n  - Schedule: N/A\n\n" "a" = true
    ∧ strHasSub "Found 1 DAGs:\n\n- **a** (⏸️ Paused)\n  - Description: N/A\n  - Schedule: N/A\n\n" "⏸️ Paused" = true
    ∧ strHasSub "Found 1 DAGs:\n\n- **a** (⏸️ Paused)\n  - Description: N/A\n  - Schedule: N/A\n\n" "▶️ Active" = false := by
  refine ⟨?_, ?_, rfl, rfl, rfl⟩
  · intro args
    constructor
    · cases htr : pyTruthy (argGet args "only_active" (Json.bool false)) <;>
        simp [get_dags_params, htr]
    · cases htr : pyTruthy (argGet args "only_active" (Json.bool false)) <;>
        simp [get_dags_params, htr]
  · intro u txt h
    simp [call_tool, call_tool_inner, handle_get_dags, make_api_request, get_dags_params,
      argGet, argReq, pyTruthy, pyStr, pyRepr, pyGet, pyLen, pyIter, pyIndex, List.lookup,
      List.foldlM, Bind.bind, Except.bind, pure, Except.pure, Functor.map, Except.map,
      toString_nat_one, String.append_assoc, h]

/-- Witness for C6's amended theorem at a concrete upstream. -/
theorem c6_get_dags_query_amended_witness :
    call_tool "get_dags" [] stubDagsPaused
      = ["Found 1 DAGs:\n\n- **a** (⏸️ Paused)\n  - Description: N/A\n  - Schedule: N/A\n\n"] :=
  c6_get_dags_query_amended.2.1 stubDagsPaused "" rfl

/-- Claim C7: `get_dag_runs` always sends `limit` (defaulting to 25) and
sends the `state` filter only when provided; each returned run is rendered
with an emoji obtained by lower-casing its state field, with
success/failed/running/queued mapped to four distinct markers and every
other state string mapped to the single generic marker. -/
theorem c7_get_dag_runs_query_and_emoji :
    (∀ args : List (String × Json),
      ("limit", argGet args "limit" (Json.num 25)) ∈ get_dag_runs_params args
      ∧ (args.lookup "state" = none →
          get_dag_runs_params args = [("limit", argGet args "limit" (Json.num 25))]))
    ∧ (dagRunStateEmoji "success" = "✅" ∧ dagRunStateEmoji "failed" = "❌"
      ∧ dagRunStateEmoji "running" = "🔄" ∧ dagRunStateEmoji "queued" = "⏳")
    ∧ [dagRunStateEmoji "success", dagRunStateEmoji "failed", dagRunStateEmoji "running",
       dagRunStateEmoji "queued", "❓"].Nodup
    ∧ (∀ s : String, s ≠ "success" → s ≠ "failed" → s ≠ "running" → s ≠ "queued" →
        dagRunStateEmoji s = "❓")
    ∧ (∀ (u : Upstream) (q s txt : String),
      u "GET" "dags/d/dagRuns" [("limit", Json.num 25)] none = .response 200 txt
        (.ok (.obj [("dag_runs", .arr [.obj [("dag_run_id", .str q), ("state", .str s)]])])) →
      call_tool "get_dag_runs" [("dag_id", .str "d")] u
        = ["DAG runs for 'd' (1 runs):\n\n" ++ dagRunStateEmoji (pyLowerString s) ++ " **" ++ q
            ++ "**\n  - State: " ++ s ++ "\n  - Start: N/A\n  - End: N/A\n\n"]) := by
  refine ⟨?_, ⟨rfl, rfl, rfl, rfl⟩, by decide, ?_, ?_⟩
  · intro args
    constructor
    · cases htr : pyTruthy (argGet args "state" Json.null) <;> simp [get_dag_runs_params, htr]
    · intro hs
      simp [get_dag_runs_params, argGet, hs, pyTruthy]
  · intro s h1 h2 h3 h4
    simp [dagRunStateEmoji, List.lookup, beq_false_of_ne h1, beq_false_of_ne h2,
      beq_false_of_ne h3, beq_false_of_ne h4]
  · intro u q s txt h
    simp [call_tool, call_tool_inner, handle_get_dag_runs, make_api_request,
      get_dag_runs_params, argGet, argReq, pyTruthy, pyStr, pyRepr, pyGet, pyLen, pyIter,
      pyIndex, pyLower, List.lookup, List.foldlM, Bind.bind, Except.bind, pure, Except.pure,
      Functor.map, Except.map, toString_nat_one, String.append_assoc, h]

/-- Witness for C7 at a concrete upstream (an upper-case state string,
exercising the lower-casing). -/
theorem c7_get_dag_runs_query_and_emoji_witness :
    call_tool "get_dag_runs" [("dag_id", .str "d")] stubOneRun
      = ["DAG runs for 'd' (1 runs):\n\n" ++ dagRunStateEmoji (pyLowerString "SUCCESS")
          ++ " **" ++ "r" ++ "**\n  - State: " ++ "SUCCESS"
          ++ "\n  - Start: N/A\n  - End: N/A\n\n"] :=
  c7_get_dag_runs_query_and_emoji.2.2.2.2 stubOneRun "r" "SUCCESS" "" rfl

/-- Claim C9: `check_health` renders an absent metadatabase or scheduler
component as status "unknown" in a success-shaped report; a component gets
the pass marker exactly when its status value is the string "healthy" (any
other value, including the "unknown" default, gets the fail marker); and the
heartbeat line appears exactly when `latest_scheduler_heartbeat` is present
and truthy. -/
theorem c9_check_health_report :
    (∀ (dbSt schedSt : Json) (u : Upstream) (txt : String),
      u "GET" "health" [] none = .response 200 txt
        (.ok (.obj [("metadatabase", .obj [("status", dbSt)]),
          ("scheduler", .obj [("status", schedSt)])])) →
      call_tool "check_health" [] u
        = ["🏥 Airflow Health Status:\n\n" ++ (if pyEqStr dbSt "healthy" then "✅" else "❌")
            ++ " **Metadatabase**: " ++ pyStr dbSt ++ "\n"
            ++ (if pyEqStr schedSt "healthy" then "✅" else "❌")
            ++ " **Scheduler**: " ++ pyStr schedSt ++ "\n"])
    ∧ (∀ (u : Upstream) (txt : String),
      u "GET" "health" [] none = .response 200 txt (.ok (.obj [])) →
      call_tool "check_health" [] u
        = ["🏥 Airflow Health Status:\n\n❌ **Metadatabase**: unknown\n❌ **Scheduler**: unknown\n"])
    ∧ (∀ (hb : Json) (u : Upstream) (txt : String),
      u "GET" "health" [] none = .response 200 txt
        (.ok (.obj [("metadatabase", .obj [("status", .str "healthy")]),
          ("scheduler", .obj [("status", .str "healthy"),
            ("latest_scheduler_heartbeat", hb)])])) →
      call_tool "check_health" [] u
        = [if pyTruthy hb then
            "🏥 Airflow Health Status:\n\n✅ **Metadatabase**: healthy\n✅ **Scheduler**: healthy\n"
              ++ "\n📅 Latest Scheduler Heartbeat: " ++ pyStr hb ++ "\n"
          else
            "🏥 Airflow Health Status:\n\n✅ **Metadatabase**: healthy\n✅ **Scheduler**: healthy\n"]) := by
  refine ⟨?_, ?_, ?_⟩
  · intro dbSt schedSt u txt h
    cases hdb : pyEqStr dbSt "healthy" <;> cases hsc : pyEqStr schedSt "healthy" <;>
      simp [call_tool, call_tool_inner, handle_check_health, make_api_request, pyGet,
        pyIndex, pyStr, pyRepr, pyTruthy, List.lookup, Bind.bind, Except.bind, pure,
        Except.pure, Functor.map, Except.map, String.append_assoc, h, hdb, hsc]
  · intro u txt h
    simp [call_tool, call_tool_inner, handle_check_health, make_api_request, pyGet, pyIndex,
      pyStr, pyRepr, pyTruthy, pyEqStr, List.lookup, Bind.bind, Except.bind, pure,
      Except.pure, Functor.map, Except.map, String.append_assoc, h]
  · intro hb u txt h
    cases htr : pyTruthy hb <;>
      simp [call_tool, call_tool_inner, handle_check_health, make_api_request, pyGet,
        pyIndex, pyStr, pyRepr, pyEqStr, List.lookup, Bind.bind, Except.bind, pure,
        Except.pure, Functor.map, Except.map, String.append_assoc, h, htr]

/-- Witness for C9 at concrete upstreams: mixed statuses without heartbeat,
an empty health object, and a healthy response with a heartbeat. -/
theorem c9_check_health_report_witness :
    call_tool "check_health" [] stubHealthNoHb
      = ["🏥 Airflow Health Status:\n\n"
          ++ (if pyEqStr (.str "healthy") "healthy" then "✅" else "❌")
          ++ " **Metadatabase**: " ++ pyStr (.str "healthy") ++ "\n"
          ++ (if pyEqStr (.str "degraded") "healthy" then "✅" else "❌")
          ++ " **Scheduler**: " ++ pyStr (.str "degraded") ++ "\n"]
    ∧ call_tool "check_health" [] stubHealthEmpty
      = ["🏥 Airflow Health Status:\n\n❌ **Metadatabase**: unknown\n❌ **Scheduler**: unknown\n"]
    ∧ call_tool "check_health" [] stubHealthHb
      = [if pyTruthy (.str "2026-01-01T00:00:00") then
          "🏥 Airflow Health Status:\n\n✅ **Metadatabase**: healthy\n✅ **Scheduler**: healthy\n"
            ++ "\n📅 Latest Scheduler Heartbeat: " ++ pyStr (.str "2026-01-01T00:00:00") ++ "\n"
        else
          "🏥 Airflow Health Status:\n\n✅ **Metadatabase**: healthy\n✅ **Scheduler**: healthy\n"] :=
  ⟨c9_check_health_report.1 (.str "healthy") (.str "degraded") stubHealthNoHb "" rfl,
   c9_check_health_report.2.1 stubHealthEmpty "" rfl,
   c9_check_health_report.2.2 (.str "2026-01-01T00:00:00") stubHealthHb "" rfl⟩

end Airflow
